import Mathlib

/-!
Shallow embedding of `src/rest.c` from openCANopen: the REST front-end's
header detector, service registry, dispatcher, reply writers and per-client
state machine, together with proofs about the claims of the specification.

Conventions of the embedding:
* raw socket bytes are `List Nat` (one `Nat` per byte);
* the per-connection growable vector is a `List Nat`; `vector_append` is
  list append and `index` is `List.length` (allocation is assumed to
  succeed);
* the buffered `FILE*` output sink accumulates into a `String`;
* a readiness event carries the bytes the drain loop extracts before its
  terminal `read(2)` outcome (would-block, end-of-stream, or read error);
* `mloop_socket_stop` is the `stopped` flag; the reactor delivers no
  further events to a stopped socket and then runs the teardown hook
  `rest__on_socket_free`;
* a handler invocation `service->fn(client, content)` is logged in `calls`
  (the handler body itself is caller-supplied code outside this file's
  scope).
-/

namespace Rest

/-- Generic scan: `begins l pat` holds when `pat` is a prefix of `l`.
Building block for the embedded `strstr`. -/
def begins {α : Type} [BEq α] : List α → List α → Bool
  | _, [] => true
  | [], _ :: _ => false
  | a :: as, b :: bs => a == b && begins as bs

/-- Generic scan: `containsSeq pat l` holds when `pat` occurs contiguously
inside `l`. Embeds `strstr` truthiness over a byte or character list. -/
def containsSeq {α : Type} [BEq α] (pat : List α) : List α → Bool
  | [] => begins ([] : List α) pat
  | a :: as => begins (a :: as) pat || containsSeq pat as

/-- Bytes of a buffer as C string functions see them: everything before the
first NUL byte. -/
def cstr (l : List Nat) : List Nat := l.takeWhile (fun b => b != 0)

/-- The header terminator bytes CR LF CR LF searched for by
`rest__read_head`. -/
def crlfcrlf : List Nat := [13, 10, 13, 10]

/-- Modelled from the spec: the routed HTTP methods of the absent header
`http.h` form a bitmask enum (`enum http_method`); GET, PUT and OPTIONS are
modelled as distinct single bits. -/
def HTTP_GET : Nat := 1

def HTTP_PUT : Nat := 2

def HTTP_OPTIONS : Nat := 4

/-- Modelled from the spec: the parsed view `struct http_req` produced by
the absent Request Parser — method, ordered path segments (`url`, with
`url_index` the segment count, here `url.length`), header byte length and
declared content length. -/
structure HttpReq where
  method : Nat
  url : List String
  header_length : Nat
  content_length : Nat
deriving DecidableEq, Repr

/-- One registered Service: method bitmask, path literal and handler; the
handler capability is identified by a numeric id. Mirrors
`struct rest_service` without the intrusive list links. -/
structure RestService where
  method : Nat
  path : String
  fn : Nat
deriving DecidableEq, Repr

/-- One logged handler invocation `service->fn(client, content)`: the
handler id and the content argument (`none` embeds a NULL pointer, `some`
the bytes of the body region). -/
structure HandlerCall where
  fn : Nat
  content : Option (List Nat)
deriving DecidableEq, Repr

/-- The client states of `enum rest_client_state`. -/
inductive ClientState where
  | START
  | CONTENT
  | SERVICING
  | DONE
  | DISCONNECTED
deriving DecidableEq, Repr

/-- Forward progress order on client states used to state monotonicity. -/
def stateRank : ClientState → Nat
  | .START => 0
  | .CONTENT => 1
  | .SERVICING => 2
  | .DONE => 3
  | .DISCONNECTED => 4

/-- Terminal outcome of one drain loop over non-blocking `read(2)`:
would-block (EAGAIN/EWOULDBLOCK), end-of-stream (`read` returned 0), or a
read error (any other negative return). -/
inductive ReadEnd where
  | wouldBlock
  | endOfStream
  | readError
deriving DecidableEq, Repr

/-- One readiness event: the bytes the drain loop extracts before hitting
its terminal outcome. -/
structure ReadEvent where
  bytes : List Nat
  outcome : ReadEnd
deriving DecidableEq, Repr

/-- The whole observable system for one connection: the global service list
`rest_service_list_`, the client's state, accumulation buffer, parsed
request (zero-initialised by `rest_client_new`'s memset), output sink
contents, handler-invocation log, and whether `mloop_socket_stop` has been
called. -/
structure Sys where
  services : List RestService
  state : ClientState
  buffer : List Nat
  req : HttpReq
  output : String
  calls : List HandlerCall
  stopped : Bool
deriving DecidableEq, Repr

/-- `rest__service_is_match`: the request's method bit is in the service's
mask, the request has at least one path segment, and its first segment
equals the service path under `strcasecmp`. -/
def strcaseeq (a b : String) : Bool :=
  a.toList.map (fun c => c.toLower) == b.toList.map (fun c => c.toLower)

def rest__service_is_match (service : RestService) (req : HttpReq) : Bool :=
  (req.method &&& service.method != 0) &&
    (match req.url with
     | [] => false
     | u0 :: _ => strcaseeq u0 service.path)

/-- `rest__find_service`: scan the service list front to back and return
the first match, if any (`SLIST_FOREACH`). -/
def rest__find_service (services : List RestService) (req : HttpReq) :
    Option RestService :=
  services.find? (fun s => rest__service_is_match s req)

/-- `rest_register_service`: store the service with the OPTIONS capability
OR'd into the mask and insert it at the head of the list
(`SLIST_INSERT_HEAD`). -/
def rest_register_service (method : Nat) (path : String) (fn : Nat)
    (services : List RestService) : List RestService :=
  { method := method ||| HTTP_OPTIONS, path := path, fn := fn } :: services

/-- `rest__read`: drain the descriptor into the buffer until the terminal
outcome; returns the grown buffer and the C return code (0 on would-block,
-1 on end-of-stream or read error; bytes read before the terminal outcome
stay appended either way). -/
def rest__read (buffer : List Nat) (ev : ReadEvent) : List Nat × Int :=
  (buffer ++ ev.bytes,
    match ev.outcome with
    | .wouldBlock => 0
    | .endOfStream => -1
    | .readError => -1)

/-- The sentinel-scan-remove core of `rest__read_head` on given buffer
contents: append one NUL byte, run `strstr(buffer->data, "\r\n\r\n")` on
the resulting C string, then drop the sentinel (`buffer->index--`).
Returns the buffer afterwards and the truthiness of the scan. -/
def rest__head_check (buffer : List Nat) : List Nat × Bool :=
  let b1 := buffer ++ [0]
  let rc := containsSeq crlfcrlf (cstr b1)
  (b1.dropLast, rc)

/-- `rest__read_head`: drain, then on success run the header-completion
check; returns the buffer and -1 (fatal), 0 (header incomplete) or 1
(header complete). -/
def rest__read_head (buffer : List Nat) (ev : ReadEvent) : List Nat × Int :=
  let r := rest__read buffer ev
  if r.2 < 0 then (r.1, -1)
  else
    let hc := rest__head_check r.1
    (hc.1, if hc.2 then 1 else 0)

/-- CRLF as written by the reply printers. -/
def crlf : String := "\r\n"

def rest__print_status_code (status : String) : String :=
  "HTTP/1.1 " ++ status ++ crlf

def rest__print_server : String :=
  "Server: CANopen master REST service" ++ crlf

def rest__print_content_type (t : String) : String :=
  "Content-Type: " ++ t ++ crlf

def rest__print_content_length (length : Nat) : String :=
  "Content-Length: " ++ toString length ++ crlf

def rest__print_connection_type : String :=
  "Connection: close" ++ crlf

def rest__print_allow_origin : String :=
  "Access-Control-Allow-Origin: *" ++ crlf

def rest__print_allow_methods : String :=
  "Access-Control-Allow-Methods: GET, PUT" ++ crlf

def rest__print_chunked_transfer_encoding : String :=
  "Transfer-Encoding: chunked" ++ crlf

/-- `struct rest_reply_data`: content length is signed; a negative value
marks unknown length. -/
structure RestReplyData where
  status_code : String
  content_type : String
  content : String
  content_length : Int

/-- `rest_reply_header`: the common header block written before any body. -/
def rest_reply_header (data : RestReplyData) : String :=
  rest__print_status_code data.status_code
    ++ rest__print_server
    ++ rest__print_connection_type
    ++ rest__print_content_type data.content_type
    ++ (if data.content_length ≥ 0 then
          rest__print_content_length data.content_length.toNat
        else
          rest__print_chunked_transfer_encoding)
    ++ rest__print_allow_origin
    ++ rest__print_allow_methods
    ++ crlf

/-- `rest_reply`: header block followed by the content bytes (`fwrite` of
`content_length` bytes; every call site passes `strlen(content)`). -/
def rest_reply (data : RestReplyData) : String :=
  rest_reply_header data ++ data.content

/-- The reply value built by `rest__not_found`. -/
def notFoundReplyData : RestReplyData :=
  { status_code := "404 Not Found"
    content_type := "text/plain"
    content := "No service is implemented for the given path.\r\n"
    content_length :=
      ("No service is implemented for the given path.\r\n" : String).length }

/-- `rest__not_found`: write the 404 reply and move to DONE. -/
def rest__not_found (sys : Sys) : Sys :=
  { sys with
      output := sys.output ++ rest_reply notFoundReplyData
      state := .DONE }

/-- The reply value built by `rest__print_index`. -/
def indexReplyData : RestReplyData :=
  { status_code := "200 OK"
    content_type := "text/plain"
    content := "This is the CANopen master REST service.\r\n"
    content_length :=
      ("This is the CANopen master REST service.\r\n" : String).length }

/-- `rest__print_index`: write the built-in index reply and move to DONE. -/
def rest__print_index (sys : Sys) : Sys :=
  { sys with
      output := sys.output ++ rest_reply indexReplyData
      state := .DONE }

/-- The `Allow:` line printed by `rest__print_options` for a method mask. -/
def rest__allow_line (methods : Nat) : String :=
  "Allow:"
    ++ (if methods &&& HTTP_GET != 0 then " GET," else "")
    ++ (if methods &&& HTTP_PUT != 0 then " PUT," else "")
    ++ " OPTIONS" ++ crlf

/-- `rest__print_options`: write the OPTIONS success reply — note it prints
no Content-Type header — and move to DONE. A missing service means the
generic mask 0xff. -/
def rest__print_options (sys : Sys) (service : Option RestService) : Sys :=
  let methods : Nat :=
    match service with
    | some s => s.method
    | none => 0xff
  let out :=
    rest__print_status_code "200 OK"
      ++ rest__print_server
      ++ rest__print_connection_type
      ++ rest__print_content_length 0
      ++ rest__print_allow_origin
      ++ rest__print_allow_methods
      ++ rest__allow_line methods
      ++ crlf
  { sys with output := sys.output ++ out, state := .DONE }

/-- `rest__have_full_content`: the buffer holds at least header length plus
declared content length. -/
def rest__have_full_content (sys : Sys) : Bool :=
  sys.req.header_length + sys.req.content_length ≤ sys.buffer.length

/-- `rest__process_content`: below the threshold do nothing; otherwise look
the service up, 404 on no match, else move to SERVICING and invoke the
handler with a pointer into the body region. -/
def rest__process_content (sys : Sys) : Sys :=
  if rest__have_full_content sys then
    match rest__find_service sys.services sys.req with
    | none => rest__not_found sys
    | some s =>
      { sys with
          state := .SERVICING
          calls := sys.calls ++
            [{ fn := s.fn
               content := some (sys.buffer.drop sys.req.header_length) }] }
  else sys

/-- `rest__handle_get`: zero segments means the index reply; otherwise look
up, 404 on no match, else SERVICING and invoke the handler with a NULL
content pointer. -/
def rest__handle_get (sys : Sys) : Sys :=
  match sys.req.url with
  | [] => rest__print_index sys
  | _ :: _ =>
    match rest__find_service sys.services sys.req with
    | none => rest__not_found sys
    | some s =>
      { sys with
          state := .SERVICING
          calls := sys.calls ++ [{ fn := s.fn, content := none }] }

/-- `rest__handle_options`: zero segments or a first segment equal to the
literal "*" (exact `strcmp`) means the generic reply; otherwise look up,
404 on no match, else the service-specific reply. -/
def rest__handle_options (sys : Sys) : Sys :=
  match sys.req.url with
  | [] => rest__print_options sys none
  | u0 :: _ =>
    if u0 = "*" then rest__print_options sys none
    else
      match rest__find_service sys.services sys.req with
      | none => rest__not_found sys
      | some s => rest__print_options sys (some s)

/-- The method switch at the end of `rest__handle_header`: GET, PUT and
OPTIONS are routed; the switch has no default case, so any other method
value does nothing. -/
def rest__dispatch_method (sys1 : Sys) : Sys :=
  if sys1.req.method = HTTP_GET then rest__handle_get sys1
  else if sys1.req.method = HTTP_PUT then
    rest__process_content { sys1 with state := .CONTENT }
  else if sys1.req.method = HTTP_OPTIONS then rest__handle_options sys1
  else sys1

/-- `rest__handle_header`: drain and run the header check; a fatal drain
stops the socket and returns, an incomplete header returns, a complete
header is parsed. The source has no early return after a failed
`http_req_parse`: the socket is stopped and control still falls through to
the method switch with the request unchanged (the parser is modelled from
the spec as producing a request or failing, leaving the out-parameter
untouched on failure). -/
def rest__handle_header (parse : List Nat → Option HttpReq) (sys : Sys)
    (ev : ReadEvent) : Sys :=
  let r := rest__read_head sys.buffer ev
  if r.2 < 0 then { sys with buffer := r.1, stopped := true }
  else if r.2 = 0 then { sys with buffer := r.1 }
  else
    rest__dispatch_method
      (match parse r.1 with
       | none => { sys with buffer := r.1, stopped := true }
       | some req => { sys with buffer := r.1, req := req })

/-- `rest__handle_content`: drain; a fatal drain stops the socket and
returns, otherwise try to process the content. -/
def rest__handle_content (sys : Sys) (ev : ReadEvent) : Sys :=
  let r := rest__read sys.buffer ev
  if r.2 < 0 then { sys with buffer := r.1, stopped := true }
  else rest__process_content { sys with buffer := r.1 }

/-- `rest__handle_junk`: read into a scratch buffer, discarding, while
`read` returns positive; stop the socket only when it returned 0
(end-of-stream). A negative return — would-block or a genuine read error —
leaves the socket running. -/
def rest__handle_junk (sys : Sys) (ev : ReadEvent) : Sys :=
  match ev.outcome with
  | .endOfStream => { sys with stopped := true }
  | .wouldBlock => sys
  | .readError => sys

/-- `rest__on_client_data`: the per-state readiness callback. The C source
aborts on the DISCONNECTED default case; that branch is unreachable because
the reactor delivers no events after teardown, and is modelled as the
identity. -/
def rest__on_client_data (parse : List Nat → Option HttpReq) (sys : Sys)
    (ev : ReadEvent) : Sys :=
  match sys.state with
  | .START => rest__handle_header parse sys ev
  | .CONTENT => rest__handle_content sys ev
  | .SERVICING => rest__handle_junk sys ev
  | .DONE => { sys with stopped := true }
  | .DISCONNECTED => sys

/-- Modelled from the spec: the reactor (absent `mloop`) delivers readiness
events in order and delivers none to a socket once it has been stopped. -/
def rest__run (parse : List Nat → Option HttpReq) (sys : Sys) :
    List ReadEvent → Sys
  | [] => sys
  | ev :: evs =>
    if sys.stopped then sys
    else rest__run parse (rest__on_client_data parse sys ev) evs

/-- `rest__on_socket_free`: the teardown hook marks the client
DISCONNECTED (it also closes the sink and drops the reference, which have
no observable counterpart here). -/
def rest__on_socket_free (sys : Sys) : Sys :=
  { sys with state := .DISCONNECTED }

/-- `rest_client_new` wired to a fresh connection: zeroed client (state
START, empty request) with an empty buffer, attached to the process
service list. -/
def rest_client_new (services : List RestService) : Sys :=
  { services := services
    state := .START
    buffer := []
    req := { method := 0, url := [], header_length := 0, content_length := 0 }
    output := ""
    calls := []
    stopped := false }

/-- A method value the switch in `rest__handle_header` routes. -/
def RoutedMethod (m : Nat) : Prop :=
  m = HTTP_GET ∨ m = HTTP_PUT ∨ m = HTTP_OPTIONS

/-- Before any dispatch (states START and CONTENT) no handler has run. -/
def Quiet (sys : Sys) : Prop :=
  sys.state = .START ∨ sys.state = .CONTENT → sys.calls = []

/-- Over a connection's whole lifetime at most one handler invocation is
logged. -/
def AtMostOnce (sys : Sys) : Prop := sys.calls.length ≤ 1

def DispatchInv (sys : Sys) : Prop := Quiet sys ∧ AtMostOnce sys

/-- The request field of a client still in START never holds a routed
method: it is zero-initialised and a successful parse of a routed method
always leaves START. -/
def StartReqInv (sys : Sys) : Prop :=
  sys.state = .START → ¬RoutedMethod sys.req.method

/-- Modelled from the spec: the reply wire format as claim C5 lists it —
status line, server-identity header, `Connection: close`, `Content-Type`,
`Content-Length` when the length is known and otherwise
`Transfer-Encoding: chunked`, the two CORS headers, a blank line, then the
body bytes. -/
def specReplyLayout (status ctype : String) (clen : Int) (body : String) :
    String :=
  "HTTP/1.1 " ++ status ++ "\r\n"
    ++ "Server: CANopen master REST service" ++ "\r\n"
    ++ "Connection: close" ++ "\r\n"
    ++ "Content-Type: " ++ ctype ++ "\r\n"
    ++ (if clen ≥ 0 then "Content-Length: " ++ toString clen.toNat ++ "\r\n"
        else "Transfer-Encoding: chunked" ++ "\r\n")
    ++ "Access-Control-Allow-Origin: *" ++ "\r\n"
    ++ "Access-Control-Allow-Methods: GET, PUT" ++ "\r\n"
    ++ "\r\n"
    ++ body

/-- Modelled from the spec, as amended by the OPTIONS counterexample: the
OPTIONS success reply carries the same sequence of headers except that no
`Content-Type` is printed, the content length is the literal 0, and an
`Allow` line (GET and PUT as per the mask, OPTIONS always) precedes the
blank line; no body follows. -/
def specOptionsLayout (methods : Nat) : String :=
  "HTTP/1.1 200 OK" ++ "\r\n"
    ++ "Server: CANopen master REST service" ++ "\r\n"
    ++ "Connection: close" ++ "\r\n"
    ++ "Content-Length: 0" ++ "\r\n"
    ++ "Access-Control-Allow-Origin: *" ++ "\r\n"
    ++ "Access-Control-Allow-Methods: GET, PUT" ++ "\r\n"
    ++ "Allow:" ++ (if methods &&& HTTP_GET != 0 then " GET," else "")
    ++ (if methods &&& HTTP_PUT != 0 then " PUT," else "")
    ++ " OPTIONS" ++ "\r\n"
    ++ "\r\n"

/-! ### Helper lemmas about the header-completion check -/

lemma cstr_append_zero (l : List Nat) : cstr (l ++ [0]) = cstr l := by
  induction l with
  | nil => rfl
  | cons a as ih =>
    by_cases h : (a != 0) = true
    · simp only [cstr, List.cons_append, List.takeWhile_cons, h] at ih ⊢
      simpa using ih
    · simp [cstr, List.takeWhile_cons, h]

lemma begins_append (l l2 pat : List Nat) (h : begins l pat = true) :
    begins (l ++ l2) pat = true := by
  induction pat generalizing l with
  | nil => simp [begins]
  | cons b bs ih =>
    cases l with
    | nil => simp [begins] at h
    | cons a as =>
      simp only [begins, List.cons_append, Bool.and_eq_true, beq_iff_eq] at h ⊢
      exact ⟨h.1, ih as h.2⟩

lemma containsSeq_append (pat l1 l2 : List Nat)
    (h : containsSeq pat l1 = true) : containsSeq pat (l1 ++ l2) = true := by
  induction l1 with
  | nil =>
    cases pat with
    | nil =>
      cases l2 with
      | nil => rfl
      | cons c cs => simp [containsSeq, begins]
    | cons b bs => simp [containsSeq, begins] at h
  | cons a as ih =>
    simp only [containsSeq, List.cons_append, Bool.or_eq_true] at h ⊢
    rcases h with h | h
    · exact Or.inl (begins_append _ _ _ h)
    · exact Or.inr (ih h)

lemma containsSeq_of_cstr (pat l : List Nat)
    (h : containsSeq pat (cstr l) = true) : containsSeq pat l = true := by
  have h2 := containsSeq_append pat (cstr l)
    (l.dropWhile (fun b => b != 0)) h
  rwa [cstr, List.takeWhile_append_dropWhile] at h2

lemma head_check_buffer (l : List Nat) : (rest__head_check l).1 = l := by
  simp only [rest__head_check, List.dropLast_concat]

lemma head_check_result (l : List Nat) :
    (rest__head_check l).2 = containsSeq crlfcrlf (cstr l) := by
  simp only [rest__head_check, cstr_append_zero]

/-! ### Frame and shape lemmas about the event handlers -/

lemma services_handle_get (sys : Sys) :
    (rest__handle_get sys).services = sys.services := by
  unfold rest__handle_get
  split
  · rfl
  · split <;> rfl

lemma services_handle_options (sys : Sys) :
    (rest__handle_options sys).services = sys.services := by
  unfold rest__handle_options
  split
  · rfl
  · split
    · rfl
    · split <;> rfl

lemma services_process_content (sys : Sys) :
    (rest__process_content sys).services = sys.services := by
  unfold rest__process_content
  split
  · split <;> rfl
  · rfl

lemma services_dispatch_method (sys : Sys) :
    (rest__dispatch_method sys).services = sys.services := by
  unfold rest__dispatch_method
  split
  · exact services_handle_get sys
  · split
    · exact services_process_content _
    · split
      · exact services_handle_options sys
      · rfl

lemma services_handle_header (parse : List Nat → Option HttpReq) (sys : Sys)
    (ev : ReadEvent) :
    (rest__handle_header parse sys ev).services = sys.services := by
  simp only [rest__handle_header]
  split
  · rfl
  · split
    · rfl
    · rw [services_dispatch_method]
      split <;> rfl

lemma services_step (parse : List Nat → Option HttpReq) (sys : Sys)
    (ev : ReadEvent) :
    (rest__on_client_data parse sys ev).services = sys.services := by
  unfold rest__on_client_data
  split
  · exact services_handle_header parse sys ev
  · simp only [rest__handle_content]
    split
    · rfl
    · exact services_process_content _
  · unfold rest__handle_junk
    split <;> rfl
  · rfl
  · rfl

lemma state_handle_get (sys : Sys) :
    (rest__handle_get sys).state = .DONE ∨
      (rest__handle_get sys).state = .SERVICING := by
  unfold rest__handle_get
  split
  · exact Or.inl rfl
  · split
    · exact Or.inl rfl
    · exact Or.inr rfl

lemma state_handle_options (sys : Sys) :
    (rest__handle_options sys).state = .DONE := by
  unfold rest__handle_options
  split
  · rfl
  · split
    · rfl
    · split <;> rfl

lemma state_process_content (sys : Sys) :
    (rest__process_content sys).state = sys.state ∨
      (rest__process_content sys).state = .SERVICING ∨
      (rest__process_content sys).state = .DONE := by
  unfold rest__process_content
  split
  · split
    · exact Or.inr (Or.inr rfl)
    · exact Or.inr (Or.inl rfl)
  · exact Or.inl rfl

lemma state_dispatch_method (sys : Sys) :
    (rest__dispatch_method sys).state = sys.state ∨
      (rest__dispatch_method sys).state = .CONTENT ∨
      (rest__dispatch_method sys).state = .SERVICING ∨
      (rest__dispatch_method sys).state = .DONE := by
  unfold rest__dispatch_method
  split
  · rcases state_handle_get sys with h | h
    · exact Or.inr (Or.inr (Or.inr h))
    · exact Or.inr (Or.inr (Or.inl h))
  · split
    · rcases state_process_content { sys with state := .CONTENT } with h | h | h
      · exact Or.inr (Or.inl h)
      · exact Or.inr (Or.inr (Or.inl h))
      · exact Or.inr (Or.inr (Or.inr h))
    · split
      · exact Or.inr (Or.inr (Or.inr (state_handle_options sys)))
      · exact Or.inl rfl

/-! ### Invariants preserved by the readiness callback -/

lemma dispatchInv_handle_get (sys : Sys) (h : sys.calls = []) :
    DispatchInv (rest__handle_get sys) := by
  unfold rest__handle_get
  split
  · simp [DispatchInv, Quiet, AtMostOnce, rest__print_index, h]
  · split
    · simp [DispatchInv, Quiet, AtMostOnce, rest__not_found, h]
    · simp [DispatchInv, Quiet, AtMostOnce, h]

lemma dispatchInv_handle_options (sys : Sys) (h : sys.calls = []) :
    DispatchInv (rest__handle_options sys) := by
  unfold rest__handle_options
  split
  · simp [DispatchInv, Quiet, AtMostOnce, rest__print_options, h]
  · split
    · simp [DispatchInv, Quiet, AtMostOnce, rest__print_options, h]
    · split
      · simp [DispatchInv, Quiet, AtMostOnce, rest__not_found, h]
      · simp [DispatchInv, Quiet, AtMostOnce, rest__print_options, h]

lemma dispatchInv_process_content (sys : Sys) (h : sys.calls = []) :
    DispatchInv (rest__process_content sys) := by
  unfold rest__process_content
  split
  · split
    · simp [DispatchInv, Quiet, AtMostOnce, rest__not_found, h]
    · simp [DispatchInv, Quiet, AtMostOnce, h]
  · exact ⟨fun _ => h, by simp [AtMostOnce, h]⟩

lemma dispatchInv_dispatch_method (sys : Sys) (h : sys.calls = []) :
    DispatchInv (rest__dispatch_method sys) := by
  unfold rest__dispatch_method
  split
  · exact dispatchInv_handle_get _ h
  · split
    · exact dispatchInv_process_content _ h
    · split
      · exact dispatchInv_handle_options _ h
      · exact ⟨fun _ => h, by simp [AtMostOnce, h]⟩

lemma dispatchInv_handle_header (parse : List Nat → Option HttpReq)
    (sys : Sys) (ev : ReadEvent) (h : sys.calls = []) :
    DispatchInv (rest__handle_header parse sys ev) := by
  simp only [rest__handle_header]
  split
  · exact ⟨fun _ => h, by simp [AtMostOnce, h]⟩
  · split
    · exact ⟨fun _ => h, by simp [AtMostOnce, h]⟩
    · apply dispatchInv_dispatch_method
      split <;> exact h

lemma dispatchInv_step (parse : List Nat → Option HttpReq) (sys : Sys)
    (ev : ReadEvent) (h : DispatchInv sys) :
    DispatchInv (rest__on_client_data parse sys ev) := by
  obtain ⟨hq, hm⟩ := h
  unfold rest__on_client_data
  split
  · exact dispatchInv_handle_header parse sys ev (hq (Or.inl (by assumption)))
  · simp only [rest__handle_content]
    have hc : sys.calls = [] := hq (Or.inr (by assumption))
    split
    · exact ⟨fun _ => hc, by simp [AtMostOnce, hc]⟩
    · exact dispatchInv_process_content _ hc
  · rename_i hst
    unfold rest__handle_junk
    split <;> exact ⟨fun hx => by simp [hst] at hx, hm⟩
  · rename_i hst
    exact ⟨fun hx => by simp [hst] at hx, hm⟩
  · exact ⟨hq, hm⟩

lemma dispatchInv_run (parse : List Nat → Option HttpReq) (sys : Sys)
    (evs : List ReadEvent) (h : DispatchInv sys) :
    DispatchInv (rest__run parse sys evs) := by
  induction evs generalizing sys with
  | nil => exact h
  | cons ev evs ih =>
    simp only [rest__run]
    split
    · exact h
    · exact ih _ (dispatchInv_step parse sys ev h)

lemma run_stopped (parse : List Nat → Option HttpReq) (sys : Sys)
    (evs : List ReadEvent) (h : sys.stopped = true) :
    rest__run parse sys evs = sys := by
  cases evs with
  | nil => rfl
  | cons ev evs => simp [rest__run, h]

lemma state_handle_header (parse : List Nat → Option HttpReq) (sys : Sys)
    (ev : ReadEvent) :
    (rest__handle_header parse sys ev).state = sys.state ∨
      (rest__handle_header parse sys ev).state = .CONTENT ∨
      (rest__handle_header parse sys ev).state = .SERVICING ∨
      (rest__handle_header parse sys ev).state = .DONE := by
  simp only [rest__handle_header]
  split
  · exact Or.inl rfl
  · split
    · exact Or.inl rfl
    · rcases state_dispatch_method
        (match parse (rest__read_head sys.buffer ev).1 with
         | none =>
           { sys with buffer := (rest__read_head sys.buffer ev).1, stopped := true }
         | some req =>
           { sys with buffer := (rest__read_head sys.buffer ev).1, req := req })
        with h | h | h | h
      · rw [h]; split <;> exact Or.inl rfl
      · exact Or.inr (Or.inl h)
      · exact Or.inr (Or.inr (Or.inl h))
      · exact Or.inr (Or.inr (Or.inr h))

lemma state_step (parse : List Nat → Option HttpReq) (sys : Sys)
    (ev : ReadEvent) :
    (rest__on_client_data parse sys ev).state = sys.state ∨
      (rest__on_client_data parse sys ev).state = .CONTENT ∨
      (rest__on_client_data parse sys ev).state = .SERVICING ∨
      (rest__on_client_data parse sys ev).state = .DONE := by
  unfold rest__on_client_data
  split
  · exact state_handle_header parse sys ev
  · simp only [rest__handle_content]
    split
    · exact Or.inl rfl
    · rcases state_process_content
        { sys with buffer := (rest__read sys.buffer ev).1 } with h | h | h
      · exact Or.inl h
      · exact Or.inr (Or.inr (Or.inl h))
      · exact Or.inr (Or.inr (Or.inr h))
  · unfold rest__handle_junk
    split <;> exact Or.inl rfl
  · exact Or.inl rfl
  · exact Or.inl rfl

lemma stateRank_step (parse : List Nat → Option HttpReq) (sys : Sys)
    (ev : ReadEvent) :
    stateRank sys.state ≤ stateRank (rest__on_client_data parse sys ev).state := by
  obtain ⟨svc, st, buf, rq, out, cls, stp⟩ := sys
  rcases ev with ⟨bs, oc⟩
  cases st
  case START => exact Nat.zero_le _
  case CONTENT =>
    rcases state_step parse ⟨svc, .CONTENT, buf, rq, out, cls, stp⟩ ⟨bs, oc⟩
      with h | h | h | h <;> simp [h, stateRank]
  case SERVICING =>
    cases oc <;>
      simp [rest__on_client_data, rest__handle_junk, stateRank]
  case DONE => simp [rest__on_client_data, stateRank]
  case DISCONNECTED => simp [rest__on_client_data, stateRank]

lemma step_not_disconnected (parse : List Nat → Option HttpReq) (sys : Sys)
    (ev : ReadEvent)
    (h : (rest__on_client_data parse sys ev).state = .DISCONNECTED) :
    sys.state = .DISCONNECTED := by
  rcases state_step parse sys ev with hx | hx | hx | hx <;> rw [h] at hx
  · exact hx.symm
  · exact absurd hx (by simp)
  · exact absurd hx (by simp)
  · exact absurd hx (by simp)

lemma startReqInv_dispatch_method (sys : Sys) :
    StartReqInv (rest__dispatch_method sys) := by
  unfold rest__dispatch_method
  split
  · intro hst
    exfalso
    rcases state_handle_get sys with h | h <;> rw [hst] at h <;> simp at h
  · split
    · intro hst
      exfalso
      rcases state_process_content { sys with state := .CONTENT }
        with h | h | h <;> rw [hst] at h <;> simp at h
    · split
      · intro hst
        exfalso
        have h := state_handle_options sys
        rw [hst] at h
        simp at h
      · rename_i hg hp ho
        intro _ hr
        rcases hr with hr | hr | hr
        · exact hg hr
        · exact hp hr
        · exact ho hr

lemma state_process_content_ne_start (sys : Sys)
    (h : sys.state ≠ .START) :
    (rest__process_content sys).state ≠ .START := by
  rcases state_process_content sys with hy | hy | hy <;> rw [hy]
  · exact h
  · simp
  · simp

lemma startReqInv_step (parse : List Nat → Option HttpReq) (sys : Sys)
    (ev : ReadEvent) (h : StartReqInv sys) :
    StartReqInv (rest__on_client_data parse sys ev) := by
  obtain ⟨svc, st, buf, rq, out, cls, stp⟩ := sys
  rcases ev with ⟨bs, oc⟩
  cases st
  case START =>
    have hm : ¬RoutedMethod rq.method := h rfl
    show StartReqInv (rest__handle_header parse _ _)
    simp only [rest__handle_header]
    split
    · intro _
      exact hm
    · split
      · intro _
        exact hm
      · exact startReqInv_dispatch_method _
  case CONTENT =>
    show StartReqInv (rest__handle_content _ _)
    simp only [rest__handle_content]
    split
    · intro hx
      exact absurd hx (by simp)
    · intro hx
      exact absurd hx (state_process_content_ne_start _ (by simp))
  case SERVICING =>
    show StartReqInv (rest__handle_junk _ _)
    unfold rest__handle_junk
    split <;> intro hx <;> exact absurd hx (by simp)
  case DONE =>
    intro hx
    exact ClientState.noConfusion hx
  case DISCONNECTED =>
    intro hx
    exact ClientState.noConfusion hx

lemma startReqInv_run (parse : List Nat → Option HttpReq) (sys : Sys)
    (evs : List ReadEvent) (h : StartReqInv sys) :
    StartReqInv (rest__run parse sys evs) := by
  induction evs generalizing sys with
  | nil => exact h
  | cons ev evs ih =>
    simp only [rest__run]
    split
    · exact h
    · exact ih _ (startReqInv_step parse sys ev h)

lemma not_routed_of (m : Nat)
    (h : m ≠ HTTP_GET ∧ m ≠ HTTP_PUT ∧ m ≠ HTTP_OPTIONS) :
    ¬RoutedMethod m := by
  intro hx
  rcases hx with hx | hx | hx
  · exact h.1 hx
  · exact h.2.1 hx
  · exact h.2.2 hx

lemma startReqInv_client_new (reg : List RestService) :
    StartReqInv (rest_client_new reg) :=
  fun _ => not_routed_of 0 (by decide)

lemma find_service_url_nil (services : List RestService) (req : HttpReq)
    (h : req.url = []) : rest__find_service services req = none := by
  rw [rest__find_service, List.find?_eq_none]
  intro x _
  simp [rest__service_is_match, h]

lemma print_content_length_zero :
    rest__print_content_length 0 = "Content-Length: 0" ++ crlf := rfl

lemma status_line_200 (t : String) :
    "HTTP/1.1 " ++ ("200 OK" ++ t) = "HTTP/1.1 200 OK" ++ t := by
  rw [← String.append_assoc]
  have h : ("HTTP/1.1 " : String) ++ "200 OK" = "HTTP/1.1 200 OK" := by decide
  rw [h]

lemma print_options_spec (sys : Sys) (service : Option RestService) :
    rest__print_options sys service
      = { sys with
          output := sys.output ++ specOptionsLayout
            (match service with
             | some s => s.method
             | none => 0xff)
          state := .DONE } := by
  rcases service with _ | s
  · simp only [rest__print_options, specOptionsLayout, rest__allow_line,
      rest__print_status_code, rest__print_server,
      rest__print_connection_type, print_content_length_zero,
      rest__print_allow_origin, rest__print_allow_methods, crlf,
      String.append_assoc, status_line_200]
  · simp only [rest__print_options, specOptionsLayout, rest__allow_line,
      rest__print_status_code, rest__print_server,
      rest__print_connection_type, print_content_length_zero,
      rest__print_allow_origin, rest__print_allow_methods, crlf,
      String.append_assoc, status_line_200]

/-! ### Claim theorems -/

/-- Claim C3, counterexample: the header-completion check is not "true iff
the buffered bytes contain CRLFCRLF" — a buffer that starts with a NUL byte
and then holds CRLFCRLF contains the terminator, yet the `strstr`-based
check reports false because the scan stops at the first NUL. -/
theorem C3_counterexample :
    containsSeq crlfcrlf [0, 13, 10, 13, 10] = true
    ∧ (rest__head_check [0, 13, 10, 13, 10]).2 = false := by decide

/-- Claim C3, amended: the check leaves the buffer (hence its reported
length) unchanged, and it returns true iff the bytes strictly before the
first NUL byte of the buffer contain CRLFCRLF; in particular a true result
still implies the buffer contains CRLFCRLF (and a buffer without CRLFCRLF
is never reported complete). -/
theorem C3_amended_head_check (buffer : List Nat) :
    (rest__head_check buffer).1 = buffer
    ∧ (rest__head_check buffer).2 = containsSeq crlfcrlf (cstr buffer)
    ∧ ((rest__head_check buffer).2 = true →
        containsSeq crlfcrlf buffer = true) :=
  ⟨head_check_buffer buffer, head_check_result buffer,
    fun h => containsSeq_of_cstr _ _ ((head_check_result buffer) ▸ h)⟩

/-- Witness for `C3_amended_head_check` at the buffer `[13, 10, 13, 10]`. -/
theorem C3_witness :
    (rest__head_check [13, 10, 13, 10]).1 = [13, 10, 13, 10]
    ∧ containsSeq crlfcrlf [13, 10, 13, 10] = true :=
  ⟨(C3_amended_head_check [13, 10, 13, 10]).1,
    (C3_amended_head_check [13, 10, 13, 10]).2.2 (by decide)⟩

/-- Claim C4: a request with zero segments never matches; a lookup returns
`some s` exactly when `s` matches and every service registered after it
(in front of it in the list) does not match — i.e. the scan is
front-to-back, most recently registered first; and registering a second
service for the same method and path makes lookups resolve to the newer
registration only. -/
theorem C4_find_first_match (services : List RestService) (req : HttpReq)
    (s : RestService) (m : Nat) (p : String) (f g : Nat) :
    (req.url = [] → rest__find_service services req = none)
    ∧ (rest__find_service services req = some s ↔
        rest__service_is_match s req = true ∧
        ∃ pre post, services = pre ++ s :: post ∧
          ∀ t ∈ pre, rest__service_is_match t req = false)
    ∧ (rest__service_is_match
          { method := m ||| HTTP_OPTIONS, path := p, fn := f } req = true →
        rest__find_service
          (rest_register_service m p f
            (rest_register_service m p g services)) req
          = some { method := m ||| HTTP_OPTIONS, path := p, fn := f }) := by
  refine ⟨?_, ?_, ?_⟩
  · intro h
    rw [rest__find_service, List.find?_eq_none]
    intro x _
    simp [rest__service_is_match, h]
  · rw [rest__find_service, List.find?_eq_some]
    simp only [Bool.not_eq_eq_eq_not, Bool.not_true]
  · intro h
    simp only [rest_register_service, rest__find_service]
    exact List.find?_cons_of_pos _ h

/-- Witness for `C4_find_first_match`: two registrations of GET "config";
a GET request for "Config" (case-insensitive) resolves to the newer one. -/
theorem C4_witness :
    rest__find_service
      (rest_register_service HTTP_GET "config" 1
        (rest_register_service HTTP_GET "config" 2 []))
      { method := HTTP_GET, url := ["Config"], header_length := 0,
        content_length := 0 }
      = some { method := HTTP_GET ||| HTTP_OPTIONS, path := "config",
               fn := 1 } :=
  (C4_find_first_match [] _ { method := 0, path := "", fn := 0 }
    HTTP_GET "config" 1 2).2.2 (by decide)

/-- Claim C5, counterexample: not every reply the server emits contains a
Content-Type header — the reply produced for `OPTIONS *` (zero parsed
segments) is non-empty yet contains no Content-Type header anywhere. -/
theorem C5_counterexample :
    (rest__on_client_data
        (fun _ => some { method := HTTP_OPTIONS, url := [],
                         header_length := 4, content_length := 0 })
        (rest_client_new [])
        { bytes := [13, 10, 13, 10], outcome := .wouldBlock }).output ≠ ""
    ∧ containsSeq ("Content-Type").toList
        ((rest__on_client_data
            (fun _ => some { method := HTTP_OPTIONS, url := [],
                             header_length := 4, content_length := 0 })
            (rest_client_new [])
            { bytes := [13, 10, 13, 10], outcome := .wouldBlock }).output).toList
      = false := by
  constructor
  · decide
  · decide

/-- Claim C5, amended: every reply written through the common reply writer
`rest_reply` (the 404 and index replies among them) has, in order, the
status line, the server-identity header, `Connection: close`,
`Content-Type`, `Content-Length` when known and otherwise
`Transfer-Encoding: chunked`, the two CORS headers, a blank line and then
the body; the OPTIONS success reply has the same sequence except that it
omits the Content-Type header and inserts an `Allow` line before the blank
line, with no body. -/
theorem C5_amended_reply_layout (data : RestReplyData) (sys : Sys)
    (service : Option RestService) :
    rest_reply data
      = specReplyLayout data.status_code data.content_type
          data.content_length data.content
    ∧ (rest__not_found sys).output = sys.output ++ rest_reply notFoundReplyData
    ∧ (rest__print_index sys).output = sys.output ++ rest_reply indexReplyData
    ∧ (rest__print_options sys service).output
      = sys.output ++ specOptionsLayout
          (match service with
           | some s => s.method
           | none => 0xff) := by
  refine ⟨?_, rfl, rfl, ?_⟩
  · simp only [rest_reply, rest_reply_header, specReplyLayout,
      rest__print_status_code, rest__print_server,
      rest__print_connection_type, rest__print_content_type,
      rest__print_content_length, rest__print_chunked_transfer_encoding,
      rest__print_allow_origin, rest__print_allow_methods, crlf,
      String.append_assoc]
  · rw [print_options_spec]

/-- Claim C6: for a parsed OPTIONS request, zero segments or a first
segment equal to the literal "*" produce the generic 200 OK reply with no
body whose Allow header lists GET, PUT and OPTIONS; with a specific path a
registry lookup is performed, a no-match produces the 404 reply, and a
match produces the 200 OK reply whose Allow header is restricted to the
matched service's mask (plus OPTIONS, which is always listed). -/
theorem C6_options_dispatch (sys : Sys) (s : RestService) :
    (sys.req.url = [] →
      rest__handle_options sys
        = { sys with
            output := sys.output ++ specOptionsLayout 0xff
            state := .DONE }
      ∧ rest__allow_line 0xff = "Allow: GET, PUT, OPTIONS" ++ crlf)
    ∧ (∀ u0 us, sys.req.url = u0 :: us → u0 = "*" →
        rest__handle_options sys
          = { sys with
              output := sys.output ++ specOptionsLayout 0xff
              state := .DONE })
    ∧ (∀ u0 us, sys.req.url = u0 :: us → u0 ≠ "*" →
        rest__find_service sys.services sys.req = none →
        rest__handle_options sys
          = { sys with
              output := sys.output ++ rest_reply notFoundReplyData
              state := .DONE })
    ∧ (∀ u0 us, sys.req.url = u0 :: us → u0 ≠ "*" →
        rest__find_service sys.services sys.req = some s →
        rest__handle_options sys
          = { sys with
              output := sys.output ++ specOptionsLayout s.method
              state := .DONE }) := by
  refine ⟨?_, ?_, ?_, ?_⟩
  · intro h
    refine ⟨?_, by decide⟩
    simp only [rest__handle_options, h]
    rw [print_options_spec]
  · intro u0 us h hstar
    simp only [rest__handle_options, h, hstar, if_pos]
    rw [print_options_spec]
  · intro u0 us h hstar hfind
    simp only [rest__handle_options, h, if_neg hstar, hfind]
    rfl
  · intro u0 us h hstar hfind
    simp only [rest__handle_options, h, if_neg hstar, hfind]
    rw [print_options_spec]

/-- Witness for `C6_options_dispatch`: the generic reply on a fresh client
whose parsed request has zero segments. -/
theorem C6_witness :
    rest__handle_options (rest_client_new [])
      = { (rest_client_new []) with
          output := (rest_client_new []).output ++ specOptionsLayout 0xff
          state := .DONE } :=
  ((C6_options_dispatch (rest_client_new [])
    { method := 0, path := "", fn := 0 }).1 rfl).1

/-- Claim C7: for a parsed GET request, zero segments produce the built-in
index reply (status 200 OK, text/plain, the fixed body, Content-Length
equal to its byte length); otherwise a registry lookup is performed, a
no-match produces the 404 reply with the fixed body, and a match moves the
client to SERVICING and invokes the handler with a NULL content pointer. -/
theorem C7_get_dispatch (sys : Sys) (s : RestService) :
    (sys.req.url = [] →
      rest__handle_get sys
        = { sys with
            output := sys.output ++ rest_reply indexReplyData
            state := .DONE }
      ∧ indexReplyData.status_code = "200 OK"
      ∧ indexReplyData.content_type = "text/plain"
      ∧ indexReplyData.content = "This is the CANopen master REST service.\r\n"
      ∧ indexReplyData.content_length = (indexReplyData.content.length : Int))
    ∧ (sys.req.url ≠ [] →
        rest__find_service sys.services sys.req = none →
        rest__handle_get sys
          = { sys with
              output := sys.output ++ rest_reply notFoundReplyData
              state := .DONE }
        ∧ notFoundReplyData.status_code = "404 Not Found"
        ∧ notFoundReplyData.content
            = "No service is implemented for the given path.\r\n"
        ∧ notFoundReplyData.content_length
            = (notFoundReplyData.content.length : Int))
    ∧ (rest__find_service sys.services sys.req = some s →
        rest__handle_get sys
          = { sys with
              state := .SERVICING
              calls := sys.calls ++ [{ fn := s.fn, content := none }] }) := by
  refine ⟨?_, ?_, ?_⟩
  · intro h
    refine ⟨?_, rfl, rfl, rfl, by decide⟩
    simp only [rest__handle_get, h]
    rfl
  · intro h hfind
    rcases hu : sys.req.url with _ | ⟨u0, us⟩
    · exact absurd hu h
    · refine ⟨?_, rfl, rfl, by decide⟩
      simp only [rest__handle_get, hu, hfind]
      rfl
  · intro hfind
    rcases hu : sys.req.url with _ | ⟨u0, us⟩
    · rw [find_service_url_nil sys.services sys.req hu] at hfind
      exact Option.noConfusion hfind
    · simp only [rest__handle_get, hu, hfind]

/-- Witness for `C7_get_dispatch`: a GET request for a registered path
invokes the handler with a NULL content pointer and state SERVICING. -/
theorem C7_witness :
    rest__handle_get
      { services := [{ method := 5, path := "config", fn := 9 }]
        state := .START
        buffer := []
        req := { method := 1, url := ["config"], header_length := 0,
                 content_length := 0 }
        output := ""
        calls := []
        stopped := false }
      = { services := [{ method := 5, path := "config", fn := 9 }]
          state := .SERVICING
          buffer := []
          req := { method := 1, url := ["config"], header_length := 0,
                   content_length := 0 }
          output := ""
          calls := [{ fn := 9, content := none }]
          stopped := false } :=
  (C7_get_dispatch
    { services := [{ method := 5, path := "config", fn := 9 }]
      state := .START
      buffer := []
      req := { method := 1, url := ["config"], header_length := 0,
               content_length := 0 }
      output := ""
      calls := []
      stopped := false }
    { method := 5, path := "config", fn := 9 }).2.2 (by decide)

/-- Claim C2: a connection still in START holds no routed method in its
request field (first conjunct, an invariant of every reachable client:
the field is zero-initialised and parsing a routed method leaves START);
consequently, when the buffered bytes contain a complete header terminator
and `http_req_parse` fails, the socket is stopped — tearing the connection
down — and despite the missing early return no dispatch occurs on that
connection: no handler is invoked, no reply bytes are written, and the
state is still START when the teardown hook runs. -/
theorem C2_parse_failure_teardown (parse : List Nat → Option HttpReq)
    (reg : List RestService) (evs : List ReadEvent) (sys : Sys)
    (ev : ReadEvent) :
    ((rest__run parse (rest_client_new reg) evs).state = .START →
      ¬RoutedMethod (rest__run parse (rest_client_new reg) evs).req.method)
    ∧ (sys.state = .START → ¬RoutedMethod sys.req.method →
        ev.outcome = .wouldBlock →
        (rest__head_check (sys.buffer ++ ev.bytes)).2 = true →
        parse (sys.buffer ++ ev.bytes) = none →
        (rest__on_client_data parse sys ev).stopped = true
        ∧ (rest__on_client_data parse sys ev).calls = sys.calls
        ∧ (rest__on_client_data parse sys ev).output = sys.output
        ∧ (rest__on_client_data parse sys ev).state = .START) := by
  constructor
  · exact startReqInv_run parse (rest_client_new reg) evs
      (startReqInv_client_new reg)
  · intro hst hm hoc hhc hparse
    have hg : sys.req.method ≠ HTTP_GET := fun hx => hm (Or.inl hx)
    have hp : sys.req.method ≠ HTTP_PUT := fun hx => hm (Or.inr (Or.inl hx))
    have ho : sys.req.method ≠ HTTP_OPTIONS :=
      fun hx => hm (Or.inr (Or.inr hx))
    obtain ⟨svc, st, buf, rq, out, cls, stp⟩ := sys
    rcases ev with ⟨bs, oc⟩
    simp only at hst hoc hhc hparse hg hp ho
    subst hst
    subst hoc
    simp [rest__on_client_data, rest__handle_header, rest__read_head,
      rest__read, head_check_buffer, hhc, hparse, rest__dispatch_method,
      hg, hp, ho]

/-- Witness for `C2_parse_failure_teardown`: a parser that always fails,
applied to a fresh client receiving a complete header. -/
theorem C2_witness :
    (rest__on_client_data (fun _ => none) (rest_client_new [])
        { bytes := [13, 10, 13, 10], outcome := .wouldBlock }).stopped = true
    ∧ (rest__on_client_data (fun _ => none) (rest_client_new [])
        { bytes := [13, 10, 13, 10], outcome := .wouldBlock }).calls
      = (rest_client_new []).calls
    ∧ (rest__on_client_data (fun _ => none) (rest_client_new [])
        { bytes := [13, 10, 13, 10], outcome := .wouldBlock }).output
      = (rest_client_new []).output
    ∧ (rest__on_client_data (fun _ => none) (rest_client_new [])
        { bytes := [13, 10, 13, 10], outcome := .wouldBlock }).state
      = .START :=
  (C2_parse_failure_teardown (fun _ => none) [] [] (rest_client_new [])
    { bytes := [13, 10, 13, 10], outcome := .wouldBlock }).2
    rfl (not_routed_of 0 (by decide)) rfl (by decide) rfl

/-- Claim C10: a successfully parsed request whose method is none of GET,
PUT and OPTIONS leaves the START-state header handler with no observable
effect beyond buffering: the client keeps state START, logs no handler
call, writes no reply bytes, keeps the registry and the stop flag, and
only the buffer and the stored parsed request change. -/
theorem C10_unrouted_method_stalls (parse : List Nat → Option HttpReq)
    (sys : Sys) (ev : ReadEvent) (r : HttpReq)
    (hst : sys.state = .START) (hoc : ev.outcome = .wouldBlock)
    (hhc : (rest__head_check (sys.buffer ++ ev.bytes)).2 = true)
    (hparse : parse (sys.buffer ++ ev.bytes) = some r)
    (hm : ¬RoutedMethod r.method) :
    rest__on_client_data parse sys ev
      = { sys with buffer := sys.buffer ++ ev.bytes, req := r } := by
  have hg : r.method ≠ HTTP_GET := fun hx => hm (Or.inl hx)
  have hp : r.method ≠ HTTP_PUT := fun hx => hm (Or.inr (Or.inl hx))
  have ho : r.method ≠ HTTP_OPTIONS := fun hx => hm (Or.inr (Or.inr hx))
  obtain ⟨svc, st, buf, rq, out, cls, stp⟩ := sys
  rcases ev with ⟨bs, oc⟩
  simp only at hst hoc hhc hparse
  subst hst
  subst hoc
  show rest__handle_header parse _ _ = _
  simp [rest__handle_header, rest__read_head, rest__read,
    head_check_buffer, hhc, hparse, rest__dispatch_method, hg, hp, ho]

/-- Witness for `C10_unrouted_method_stalls`: a parser producing method
bit 8 (say DELETE) on a fresh client receiving a complete header. -/
theorem C10_witness :
    rest__on_client_data
        (fun _ => some { method := 8, url := [], header_length := 4,
                         content_length := 0 })
        (rest_client_new [])
        { bytes := [13, 10, 13, 10], outcome := .wouldBlock }
      = { (rest_client_new []) with
          buffer := [13, 10, 13, 10]
          req := { method := 8, url := [], header_length := 4,
                   content_length := 0 } } :=
  C10_unrouted_method_stalls
    (fun _ => some { method := 8, url := [], header_length := 4,
                     content_length := 0 })
    (rest_client_new [])
    { bytes := [13, 10, 13, 10], outcome := .wouldBlock }
    { method := 8, url := [], header_length := 4, content_length := 0 }
    rfl rfl (by decide) rfl (not_routed_of 8 (by decide))

/-- Claim C8, counterexample: a read error does not force teardown in
every state — a client that reached SERVICING through a dispatched GET and
then sees a read error is left running (not stopped). -/
theorem C8_counterexample :
    (rest__run
        (fun _ => some { method := HTTP_GET, url := ["x"],
                         header_length := 4, content_length := 0 })
        (rest_client_new
          [{ method := HTTP_GET ||| HTTP_OPTIONS, path := "x", fn := 5 }])
        [{ bytes := [13, 10, 13, 10], outcome := .wouldBlock },
         { bytes := [], outcome := .readError }]).state = .SERVICING
    ∧ (rest__run
        (fun _ => some { method := HTTP_GET, url := ["x"],
                         header_length := 4, content_length := 0 })
        (rest_client_new
          [{ method := HTTP_GET ||| HTTP_OPTIONS, path := "x", fn := 5 }])
        [{ bytes := [13, 10, 13, 10], outcome := .wouldBlock },
         { bytes := [], outcome := .readError }]).stopped = false := by
  constructor
  · decide
  · decide

/-- Claim C8, amended: end-of-stream and read errors unconditionally force
teardown in START and CONTENT; in SERVICING only end-of-stream does, while
a read error is treated like would-block and leaves the stop flag as it
was; in DONE any readiness event forces teardown. -/
theorem C8_amended_peer_close (parse : List Nat → Option HttpReq)
    (sys : Sys) (ev : ReadEvent) :
    (sys.state = .START →
      ev.outcome = .endOfStream ∨ ev.outcome = .readError →
      (rest__on_client_data parse sys ev).stopped = true)
    ∧ (sys.state = .CONTENT →
      ev.outcome = .endOfStream ∨ ev.outcome = .readError →
      (rest__on_client_data parse sys ev).stopped = true)
    ∧ (sys.state = .SERVICING → ev.outcome = .endOfStream →
      (rest__on_client_data parse sys ev).stopped = true)
    ∧ (sys.state = .SERVICING → ev.outcome = .readError →
      (rest__on_client_data parse sys ev).stopped = sys.stopped)
    ∧ (sys.state = .DONE →
      (rest__on_client_data parse sys ev).stopped = true) := by
  obtain ⟨svc, st, buf, rq, out, cls, stp⟩ := sys
  rcases ev with ⟨bs, oc⟩
  refine ⟨?_, ?_, ?_, ?_, ?_⟩
  · intro hst hoc
    simp only at hst
    subst hst
    rcases hoc with hoc | hoc <;> (simp only at hoc; subst hoc) <;>
      simp [rest__on_client_data, rest__handle_header, rest__read_head,
        rest__read]
  · intro hst hoc
    simp only at hst
    subst hst
    rcases hoc with hoc | hoc <;> (simp only at hoc; subst hoc) <;>
      simp [rest__on_client_data, rest__handle_content, rest__read]
  · intro hst hoc
    simp only at hst
    subst hst
    simp only at hoc
    subst hoc
    simp [rest__on_client_data, rest__handle_junk]
  · intro hst hoc
    simp only at hst
    subst hst
    simp only at hoc
    subst hoc
    simp [rest__on_client_data, rest__handle_junk]
  · intro hst
    simp only at hst
    subst hst
    simp [rest__on_client_data]

/-- Witness for `C8_amended_peer_close`: end-of-stream on a fresh START
client stops the socket. -/
theorem C8_witness :
    (rest__on_client_data (fun _ => none) (rest_client_new [])
        { bytes := [], outcome := .endOfStream }).stopped = true :=
  (C8_amended_peer_close (fun _ => none) (rest_client_new [])
    { bytes := [], outcome := .endOfStream }).1 rfl (Or.inl rfl)

/-- Claim C9: one readiness callback never decreases the state in the
order START, CONTENT, SERVICING, DONE, DISCONNECTED; the callback itself
never produces DISCONNECTED (so the only transition into it is the single
terminal one performed by the teardown hook, possible from any state);
once the socket is stopped no further events are processed; and the
teardown hook marks the client DISCONNECTED. -/
theorem C9_state_monotonic (parse : List Nat → Option HttpReq) (sys : Sys)
    (ev : ReadEvent) (evs : List ReadEvent) :
    stateRank sys.state ≤ stateRank (rest__on_client_data parse sys ev).state
    ∧ ((rest__on_client_data parse sys ev).state = .DISCONNECTED →
        sys.state = .DISCONNECTED)
    ∧ (sys.stopped = true → rest__run parse sys evs = sys)
    ∧ (rest__on_socket_free sys).state = .DISCONNECTED :=
  ⟨stateRank_step parse sys ev, step_not_disconnected parse sys ev,
    run_stopped parse sys evs, rfl⟩

/-- Witness for `C9_state_monotonic`: a stopped client processes no further
events. -/
theorem C9_witness :
    rest__run (fun _ => none)
        { (rest_client_new []) with stopped := true }
        [{ bytes := [1], outcome := .wouldBlock }]
      = { (rest_client_new []) with stopped := true } :=
  (C9_state_monotonic (fun _ => none)
    { (rest_client_new []) with stopped := true }
    { bytes := [1], outcome := .wouldBlock }
    [{ bytes := [1], outcome := .wouldBlock }]).2.2.1 rfl

/-- Claim C1, counterexample: the handler is not always invoked at the
first readiness event at which the buffer holds header length plus content
length bytes — if that event's drain ends in end-of-stream (the peer sent
the whole body and closed), the connection is torn down and the registered
matching handler is never invoked, even though the threshold was reached
at that event. -/
theorem C1_counterexample :
    4 + 3 ≤ (rest__run
        (fun _ => some { method := HTTP_PUT, url := ["x"],
                         header_length := 4, content_length := 3 })
        (rest_client_new
          [{ method := HTTP_PUT ||| HTTP_OPTIONS, path := "x", fn := 7 }])
        [{ bytes := [13, 10, 13, 10], outcome := .wouldBlock },
         { bytes := [1, 2, 3], outcome := .endOfStream }]).buffer.length
    ∧ rest__find_service
        [{ method := HTTP_PUT ||| HTTP_OPTIONS, path := "x", fn := 7 }]
        { method := HTTP_PUT, url := ["x"], header_length := 4,
          content_length := 3 }
      = some { method := HTTP_PUT ||| HTTP_OPTIONS, path := "x", fn := 7 }
    ∧ (rest__run
        (fun _ => some { method := HTTP_PUT, url := ["x"],
                         header_length := 4, content_length := 3 })
        (rest_client_new
          [{ method := HTTP_PUT ||| HTTP_OPTIONS, path := "x", fn := 7 }])
        [{ bytes := [13, 10, 13, 10], outcome := .wouldBlock },
         { bytes := [1, 2, 3], outcome := .endOfStream }]).calls = []
    ∧ (rest__run
        (fun _ => some { method := HTTP_PUT, url := ["x"],
                         header_length := 4, content_length := 3 })
        (rest_client_new
          [{ method := HTTP_PUT ||| HTTP_OPTIONS, path := "x", fn := 7 }])
        [{ bytes := [13, 10, 13, 10], outcome := .wouldBlock },
         { bytes := [1, 2, 3], outcome := .endOfStream }]).stopped
      = true := by
  refine ⟨?_, ?_, ?_, ?_⟩
  · decide
  · decide
  · decide
  · decide

/-- Claim C1, amended: over any connection lifetime at most one handler
invocation is logged; in CONTENT no dispatch occurs while the drained
buffer is below header length plus content length; at the first readiness
event at which the buffer reaches the threshold the handler is invoked
exactly once with a pointer to the body region and the state moves to
SERVICING, provided the drain ended in would-block and a matching service
is registered — and likewise directly from START when a complete PUT
header arrives together with the whole body; once SERVICING or DONE is
reached, further inbound bytes add no handler invocation and write no
output; and no readiness callback ever alters the registry. -/
theorem C1_amended_put_exactly_once (parse : List Nat → Option HttpReq)
    (reg : List RestService) (evs : List ReadEvent) (sys : Sys)
    (ev : ReadEvent) (s : RestService) :
    (rest__run parse (rest_client_new reg) evs).calls.length ≤ 1
    ∧ (sys.state = .CONTENT →
        (sys.buffer ++ ev.bytes).length
            < sys.req.header_length + sys.req.content_length →
        (rest__on_client_data parse sys ev).calls = sys.calls
        ∧ (rest__on_client_data parse sys ev).state = .CONTENT)
    ∧ (sys.state = .CONTENT → ev.outcome = .wouldBlock →
        sys.req.header_length + sys.req.content_length
            ≤ (sys.buffer ++ ev.bytes).length →
        rest__find_service sys.services sys.req = some s →
        (rest__on_client_data parse sys ev).calls
          = sys.calls ++
            [{ fn := s.fn
               content := some ((sys.buffer ++ ev.bytes).drop
                 sys.req.header_length) }]
        ∧ (rest__on_client_data parse sys ev).state = .SERVICING)
    ∧ (∀ r : HttpReq, sys.state = .START → ev.outcome = .wouldBlock →
        (rest__head_check (sys.buffer ++ ev.bytes)).2 = true →
        parse (sys.buffer ++ ev.bytes) = some r →
        r.method = HTTP_PUT →
        r.header_length + r.content_length ≤ (sys.buffer ++ ev.bytes).length →
        rest__find_service sys.services r = some s →
        (rest__on_client_data parse sys ev).calls
          = sys.calls ++
            [{ fn := s.fn
               content := some ((sys.buffer ++ ev.bytes).drop
                 r.header_length) }]
        ∧ (rest__on_client_data parse sys ev).state = .SERVICING)
    ∧ (sys.state = .SERVICING ∨ sys.state = .DONE →
        (rest__on_client_data parse sys ev).calls = sys.calls
        ∧ (rest__on_client_data parse sys ev).output = sys.output)
    ∧ (rest__on_client_data parse sys ev).services = sys.services := by
  refine ⟨?_, ?_, ?_, ?_, ?_, services_step parse sys ev⟩
  · exact (dispatchInv_run parse (rest_client_new reg) evs
      ⟨fun _ => rfl, by simp [AtMostOnce, rest_client_new]⟩).2
  · intro hst hlt
    have hnot : ¬(sys.req.header_length + sys.req.content_length
        ≤ (sys.buffer ++ ev.bytes).length) := Nat.not_le.mpr hlt
    obtain ⟨svc, st, buf, rq, out, cls, stp⟩ := sys
    rcases ev with ⟨bs, oc⟩
    simp only at hst
    simp only [List.length_append] at hnot
    subst hst
    cases oc <;>
      simp [rest__on_client_data, rest__handle_content, rest__read,
        rest__process_content, rest__have_full_content, hnot]
  · intro hst hoc hle hfind
    obtain ⟨svc, st, buf, rq, out, cls, stp⟩ := sys
    rcases ev with ⟨bs, oc⟩
    simp only at hst hoc hfind
    simp only [List.length_append] at hle
    subst hst
    subst hoc
    simp [rest__on_client_data, rest__handle_content, rest__read,
      rest__process_content, rest__have_full_content, hle, hfind]
  · intro r hst hoc hhc hparse hmput hle hfind
    obtain ⟨svc, st, buf, rq, out, cls, stp⟩ := sys
    rcases ev with ⟨bs, oc⟩
    simp only at hst hoc hhc hparse hfind
    simp only [List.length_append] at hle
    subst hst
    subst hoc
    simp [rest__on_client_data, rest__handle_header, rest__read_head,
      rest__read, head_check_buffer, hhc, hparse, rest__dispatch_method,
      hmput, HTTP_PUT, HTTP_GET, rest__process_content,
      rest__have_full_content, hle, hfind]
  · intro hst
    obtain ⟨svc, st, buf, rq, out, cls, stp⟩ := sys
    rcases ev with ⟨bs, oc⟩
    rcases hst with hst | hst <;> simp only at hst <;> subst hst <;>
      cases oc <;>
      simp [rest__on_client_data, rest__handle_junk]

/-- Witness for `C1_amended_put_exactly_once`: a CONTENT-state PUT client
whose drain reaches the threshold dispatches once to the matching
service. -/
theorem C1_witness :
    (rest__on_client_data (fun _ => none)
        { services := [{ method := 6, path := "x", fn := 7 }]
          state := .CONTENT
          buffer := [13, 10, 13, 10]
          req := { method := 2, url := ["x"], header_length := 4,
                   content_length := 3 }
          output := ""
          calls := []
          stopped := false }
        { bytes := [1, 2, 3], outcome := .wouldBlock }).calls
      = [{ fn := 7, content := some [1, 2, 3] }]
    ∧ (rest__on_client_data (fun _ => none)
        { services := [{ method := 6, path := "x", fn := 7 }]
          state := .CONTENT
          buffer := [13, 10, 13, 10]
          req := { method := 2, url := ["x"], header_length := 4,
                   content_length := 3 }
          output := ""
          calls := []
          stopped := false }
        { bytes := [1, 2, 3], outcome := .wouldBlock }).state = .SERVICING :=
  (C1_amended_put_exactly_once (fun _ => none) [] []
    { services := [{ method := 6, path := "x", fn := 7 }]
      state := .CONTENT
      buffer := [13, 10, 13, 10]
      req := { method := 2, url := ["x"], header_length := 4,
               content_length := 3 }
      output := ""
      calls := []
      stopped := false }
    { bytes := [1, 2, 3], outcome := .wouldBlock }
    { method := 6, path := "x", fn := 7 }).2.2.1
    rfl rfl (by decide) (by decide)

end Rest
